import Mathlib

/-!
Shallow embedding of the lead-generation system: the geo-bounded discovery
pipeline (`lead_generator.py`) and the quality scorer/filter
(`lead_quality_finder.py`).

Modelling conventions:
* Python `str` values become Lean `String`.  Every field read in the quality
  code is wrapped in `str(lead.get(field, ''))`, so an absent field is
  embedded as the empty string.
* Python string primitives (`lower`, `strip`, `split`, `startswith`,
  substring `in`) are re-implemented structurally over `List Char` so that
  all definitions are kernel-computable.  `strip` removes the whitespace
  characters recognised by `Char.isWhitespace`.
* Latitude/longitude floats are embedded as rationals: the code only ever
  compares them with `<=`.
* The external HTTP services are embedded as explicit data: a geocode
  response, a trace (list) of search-page responses consumed in order, and a
  function from place id to details response.  Politeness/settle delays have
  no observable effect on the returned data and are not modelled.
-/

/-- Python `str.lower` restricted to the character-wise case map. -/
def ascii_lower (s : String) : String :=
  ⟨s.data.map Char.toLower⟩

/-- Drop leading whitespace characters. -/
def drop_space : List Char → List Char
  | [] => []
  | c :: r => if c.isWhitespace then drop_space r else c :: r

/-- Python `str.strip()`: drop leading and trailing whitespace. -/
def py_strip (s : String) : String :=
  ⟨drop_space ((drop_space s.data.reverse).reverse)⟩

/-- Split a character list on a separator character;

`split_char c l` always returns at least one group, like Python `split`. -/
def split_char (sep : Char) : List Char → List (List Char)
  | [] => [[]]
  | c :: r =>
    if c = sep then [] :: split_char sep r
    else
      match split_char sep r with
      | [] => [[c]]
      | g :: gs => (c :: g) :: gs

/-- Python `s.split(sep)` for a one-character separator. -/
def py_split (s : String) (sep : Char) : List String :=
  (split_char sep s.data).map (fun l => ⟨l⟩)

/-- Python `s.startswith(p)`. -/
def starts_with (s p : String) : Bool :=
  p.data.isPrefixOf s.data

/-- Contiguous-segment containment on character lists. -/
def seg_in (n : List Char) : List Char → Bool
  | [] => n.isEmpty
  | c :: r => n.isPrefixOf (c :: r) || seg_in n r

/-- Python substring test `needle in hay`. -/
def py_in (needle hay : String) : Bool :=
  seg_in needle.data hay.data

/-! ### Quality filter data model (`lead_quality_finder.py`) -/

/-- A lead record as read by `LeadQualityFilter`: each field is the string
`str(lead.get(key, ''))` for the dictionary keys `Website`,
`discovered_emails`, `potential_emails`, `key_facts`, `owner_name`,
`confidence`, `full_address`; an absent field is the empty string. -/
structure QLead where
  website : String := ""
  discovered_emails : String := ""
  potential_emails : String := ""
  key_facts : String := ""
  owner_name : String := ""
  confidence : String := ""
  full_address : String := ""
  deriving DecidableEq

/-- `LeadQualityConfig` dataclass with its source defaults. -/
structure LeadQualityConfig where
  min_key_facts : Nat := 3
  require_website : Bool := true
  require_email : Bool := true
  require_owner_info : Bool := true
  min_confidence_level : String := "medium"
  strict_location_match : Bool := true
  deriving DecidableEq

/-- `LeadQualityFilter._has_valid_website`. -/
def has_valid_website (lead : QLead) : Bool :=
  let website := ascii_lower lead.website
  (!(["", "n/a", "none", "nan"].contains website)) &&
    (starts_with website "http://" || starts_with website "https://")

/-- `LeadQualityFilter._has_valid_email`. -/
def has_valid_email (lead : QLead) : Bool :=
  !(py_strip lead.discovered_emails == "") || !(py_strip lead.potential_emails == "")

/-- The fact count used both by `_has_sufficient_key_facts` and by
`calculate_quality_score`: `len([f for f in key_facts.split(';') if f.strip()])`. -/
def facts_count (key_facts : String) : Nat :=
  ((py_split key_facts ';').filter (fun f => !(py_strip f == ""))).length

/-- `LeadQualityFilter._has_sufficient_key_facts`. -/
def has_sufficient_key_facts (cfg : LeadQualityConfig) (lead : QLead) : Bool :=
  if py_strip lead.key_facts == "" then false
  else decide (cfg.min_key_facts ≤ facts_count lead.key_facts)

/-- `LeadQualityFilter._has_owner_info`. -/
def has_owner_info (lead : QLead) : Bool :=
  let owner_name := py_strip lead.owner_name
  let confidence := ascii_lower lead.confidence
  (!(owner_name == "")) &&
    (["high", "medium"].contains confidence) &&
    (!(["none", "n/a", "unknown"].contains (ascii_lower owner_name)))

/-- `LeadQualityFilter._matches_location`. -/
def matches_location (cfg : LeadQualityConfig) (lead : QLead)
    (target_location : String) : Bool :=
  if !cfg.strict_location_match then true
  else
    let lead_address := ascii_lower lead.full_address
    let target := ascii_lower target_location
    match py_split target ',' with
    | [city, st] =>
        py_in (py_strip city) lead_address && py_in (py_strip st) lead_address
    | _ => true

/-- `LeadQualityFilter.filter_leads`; `target_location = None` and
`target_location = ""` are both falsy in the guard
`if target_location and not self._matches_location(...)`. -/
def filter_leads (cfg : LeadQualityConfig) (leads : List QLead)
    (target_location : Option String) : List QLead :=
  leads.filter (fun lead =>
    (!cfg.require_website || has_valid_website lead) &&
    (!cfg.require_email || has_valid_email lead) &&
    (!cfg.require_owner_info || has_owner_info lead) &&
    has_sufficient_key_facts cfg lead &&
    (match target_location with
     | none => true
     | some tl => (tl == "") || matches_location cfg lead tl))

/-- `LeadQualityFilter.calculate_quality_score`.  The Python body sums
integer literals, so the score is embedded as a natural number.  The
config parameter mirrors `self.config`; the method body never reads it. -/
def calculate_quality_score (cfg : LeadQualityConfig) (lead : QLead) : Nat :=
  (if has_valid_website lead then 20 else 0) +
  (if has_valid_email lead then 20 else 0) +
  min (facts_count lead.key_facts * 10) 30 +
  (if has_owner_info lead then
     (let confidence := ascii_lower lead.confidence
      if confidence == "high" then 30
      else if confidence == "medium" then 20
      else 0)
   else 0)

/-- Insert a scored row into a descending-by-score list, after any row of
equal score. -/
def insert_desc (x : QLead × Nat) : List (QLead × Nat) → List (QLead × Nat)
  | [] => [x]
  | y :: ys => if y.2 < x.2 then x :: y :: ys else y :: insert_desc x ys

/-- Descending sort by score, modelling
`df.sort_values('quality_score', ascending=False)`.  The pandas call uses
the default `kind='quicksort'`, whose tie order is an internal detail of
numpy; this model orders descending and keeps ties in input order. -/
def sort_by_score_desc (l : List (QLead × Nat)) : List (QLead × Nat) :=
  l.foldl (fun acc x => insert_desc x acc) []

/-- `LeadQualityFilter.enrich_leads_with_scores`: the returned DataFrame is
embedded as a list of rows, each row a lead together with its
`quality_score` column. -/
def enrich_leads_with_scores (cfg : LeadQualityConfig) (leads : List QLead) :
    List (QLead × Nat) :=
  sort_by_score_desc (leads.map (fun lead => (lead, calculate_quality_score cfg lead)))

/-! ### Discovery data model (`lead_generator.py`) -/

/-- A latitude/longitude pair; floats embedded as rationals. -/
structure LatLng where
  lat : ℚ
  lng : ℚ
  deriving DecidableEq

/-- A viewport: the `bounds` dictionary with `southwest`/`northeast` corners. -/
structure Bounds where
  southwest : LatLng
  northeast : LatLng
  deriving DecidableEq

/-- `LeadGenerator._is_within_bounds`. -/
def is_within_bounds (lat lng : ℚ) (bounds : Bounds) : Bool :=
  (decide (bounds.southwest.lat ≤ lat) && decide (lat ≤ bounds.northeast.lat)) &&
    (decide (bounds.southwest.lng ≤ lng) && decide (lng ≤ bounds.northeast.lng))

/-- One entry of the geocode response: the result geometry (location and
viewport). -/
structure GeoResult where
  loc : LatLng
  viewport : Bounds
  deriving DecidableEq

/-- The geocode service response. -/
structure GeoResp where
  status : String
  results : List GeoResult
  deriving DecidableEq

/-- The dictionary returned by `_get_location_bounds` on success. -/
structure LocationData where
  lat : ℚ
  lng : ℚ
  bounds : Bounds
  deriving DecidableEq

/-- `LeadGenerator._get_location_bounds`: `None` on non-`OK` status (the
raised `ValueError` is caught) or on an empty result list (the `IndexError`
is caught). -/
def get_location_bounds (resp : GeoResp) : Option LocationData :=
  if resp.status == "OK" then
    match resp.results with
    | r :: _ => some { lat := r.loc.lat, lng := r.loc.lng, bounds := r.viewport }
    | [] => none
  else none

/-- A candidate from a text-search results page: its `place_id` and its
`geometry.location`. -/
structure Place where
  place_id : String
  loc : LatLng
  deriving DecidableEq

/-- A text-search page response; `next_page_token` is absent (`None`) when
the key is missing. -/
structure PageResp where
  status : String
  results : List Place
  next_page_token : Option String
  deriving DecidableEq

/-- The `result` dictionary of a place-details response; `none` models a
missing key. -/
structure DetailResult where
  name : Option String
  formatted_address : Option String
  formatted_phone_number : Option String
  website : Option String
  business_status : Option String
  deriving DecidableEq

/-- A place-details response. -/
structure DetailResp where
  status : String
  result : DetailResult
  deriving DecidableEq

/-- A discovery lead: keys `company_name`, `full_address`, `Phone`,
`Website`, `Business Type` of the emitted dictionary. -/
structure Lead where
  company_name : String
  full_address : String
  phone : String
  website : String
  business_type : String
  deriving DecidableEq

/-- The lead dictionary built from a details result. -/
def mk_lead (business_type : String) (r : DetailResult) : Lead :=
  { company_name := r.name.getD ""
    full_address := r.formatted_address.getD ""
    phone := r.formatted_phone_number.getD "N/A"
    website := r.website.getD "N/A"
    business_type := business_type }

/-- An emitted lead together with the candidate it came from (its
`place_id` and the coordinates checked against the bounds); ghost data
recording which candidate produced each appended lead. -/
structure EmitRec where
  place_id : String
  place_loc : LatLng
  lead : Lead
  deriving DecidableEq

/-- Python falsiness of `data.get('next_page_token')`: `None` or `""`. -/
def token_falsy : Option String → Bool
  | none => true
  | some t => t == ""

/-- The `for place in data['results']` loop of `generate_leads`: state is
the accumulated leads and the `processed_places` set (a list of ids). -/
def process_places (details : String → DetailResp) (bounds : Bounds)
    (business_type : String) (max_results : Nat) :
    List Place → List EmitRec → List String → List EmitRec × List String
  | [], leads, processed => (leads, processed)
  | pl :: rest, leads, processed =>
    if max_results ≤ leads.length then (leads, processed)
    else if processed.contains pl.place_id then
      process_places details bounds business_type max_results rest leads processed
    else
      let processed' := pl.place_id :: processed
      if !(is_within_bounds pl.loc.lat pl.loc.lng bounds) then
        process_places details bounds business_type max_results rest leads processed'
      else
        let d := details pl.place_id
        if d.status == "OK" then
          if !(d.result.business_status == some "OPERATIONAL") then
            process_places details bounds business_type max_results rest leads processed'
          else
            process_places details bounds business_type max_results rest
              (leads ++ [{ place_id := pl.place_id, place_loc := pl.loc
                           lead := mk_lead business_type d.result }]) processed'
        else
          process_places details bounds business_type max_results rest leads processed'

/-- The `while len(leads) < max_results` pagination loop of
`generate_leads`, run over the trace of page responses the provider
returns, consumed in order.  The loop exits with the collected leads when
the cap is reached, when a page has non-`OK` status, or when the page has
no (or an empty) continuation token; an exhausted trace also ends the run. -/
def run_pages (details : String → DetailResp) (bounds : Bounds)
    (business_type : String) (max_results : Nat) :
    List PageResp → List EmitRec → List String → List EmitRec
  | [], leads, _ => leads
  | page :: rest, leads, processed =>
    if max_results ≤ leads.length then leads
    else if page.status == "OK" then
      let out := process_places details bounds business_type max_results
        page.results leads processed
      if token_falsy page.next_page_token then out.1
      else run_pages details bounds business_type max_results rest out.1 out.2
    else leads

/-- `LeadGenerator.generate_leads`, instrumented: each emitted lead is
paired with the candidate (`place_id`, coordinates) that produced it. -/
def generate_leads_trace (details : String → DetailResp) (geo : GeoResp)
    (business_type : String) (max_results : Nat) (pages : List PageResp) :
    List EmitRec :=
  match get_location_bounds geo with
  | none => []
  | some ld => run_pages details ld.bounds business_type max_results pages [] []

/-- `LeadGenerator.generate_leads`: the list of emitted lead dictionaries. -/
def generate_leads (details : String → DetailResp) (geo : GeoResp)
    (business_type : String) (max_results : Nat) (pages : List PageResp) :
    List Lead :=
  (generate_leads_trace details geo business_type max_results pages).map EmitRec.lead

/-- The `LeadGenerator` object state set by `__init__`. -/
structure LeadGenerator where
  api_key : String
  delay_between_requests : ℚ
  deriving DecidableEq

/-- `LeadGenerator.__init__`: an empty (falsy) key raises `ValueError`,
otherwise the key is stored and the politeness delay defaults to `0.5`. -/
def LeadGenerator.init (api_key : String) : Except String LeadGenerator :=
  if api_key = "" then Except.error "Missing Google API Key"
  else Except.ok { api_key := api_key, delay_between_requests := (1 : ℚ)/2 }

/-- The per-candidate admission facts recorded for every emitted lead: its
coordinates passed the bounds test, its details lookup succeeded, and its
business status was `OPERATIONAL` at lookup time. -/
def Emitted (details : String → DetailResp) (bounds : Bounds) (e : EmitRec) : Prop :=
  is_within_bounds e.place_loc.lat e.place_loc.lng bounds = true ∧
  (details e.place_id).status = "OK" ∧
  (details e.place_id).result.business_status = some "OPERATIONAL"

/-! ### Concrete scenario used by the witnesses -/

/-- A concrete viewport. -/
def wit_bounds : Bounds :=
  { southwest := { lat := 0, lng := 0 }, northeast := { lat := 10, lng := 10 } }

/-- A concrete successful geocode response. -/
def wit_geo : GeoResp :=
  { status := "OK"
    results := [{ loc := { lat := 5, lng := 5 }, viewport := wit_bounds }] }

/-- The location data `_get_location_bounds` extracts from `wit_geo`. -/
def wit_ld : LocationData := { lat := 5, lng := 5, bounds := wit_bounds }

/-- A concrete operational details result. -/
def wit_detail : DetailResult :=
  { name := some "Acme Dental"
    formatted_address := some "1 Main St, Newbern, NC"
    formatted_phone_number := none
    website := some "https://acme.example"
    business_status := some "OPERATIONAL" }

/-- A details service answering every id with `wit_detail`. -/
def wit_details : String → DetailResp :=
  fun _ => { status := "OK", result := wit_detail }

/-- A concrete in-bounds candidate. -/
def wit_place : Place := { place_id := "p1", loc := { lat := 3, lng := 4 } }

/-- A single successful page with one candidate and no continuation token. -/
def wit_page : PageResp :=
  { status := "OK", results := [wit_place], next_page_token := none }

/-- The record `generate_leads_trace` emits for `wit_place`. -/
def wit_emit : EmitRec :=
  { place_id := "p1", place_loc := wit_place.loc, lead := mk_lead "dentist" wit_detail }

/-- A lead with every scored field populated at the maximal level. -/
def wit_max_lead : QLead :=
  { website := "https://acme.example"
    discovered_emails := "info@acme.example"
    potential_emails := ""
    key_facts := "family owned;since 1990;award winning"
    owner_name := "Jane Doe"
    confidence := "High"
    full_address := "1 Main St, Newbern, NC" }

/-- Lead for the C7 counterexample: address `"ab"`. -/
def cex7_lead : QLead := { full_address := "ab" }

/-- Lead for the C7 witness: a full address containing city and state. -/
def wit7_lead : QLead := { full_address := "123 Main St, Newbern, NC 28562" }

/-- Config with `min_key_facts := 0` for the C6 counterexample. -/
def cex6_cfg : LeadQualityConfig := { min_key_facts := 0 }

/-- A failing search page for the C9 witness. -/
def cex9_page : PageResp :=
  { status := "OVER_QUERY_LIMIT", results := [], next_page_token := none }

/-! ### Loop invariants of the discovery pipeline -/

/-- The per-page candidate loop never grows the lead list beyond the cap. -/
theorem process_places_length (details : String → DetailResp) (bounds : Bounds)
    (business_type : String) (max_results : Nat) :
    ∀ (places : List Place) (leads : List EmitRec) (processed : List String),
      leads.length ≤ max_results →
      ((process_places details bounds business_type max_results places
          leads processed).1).length ≤ max_results := by
  intro places
  induction places with
  | nil => intro leads processed h; simpa [process_places] using h
  | cons pl rest ih =>
    intro leads processed h
    simp only [process_places]
    split_ifs with hmax hdup hbound hstat hop
    · simpa using h
    · exact ih _ _ h
    · exact ih _ _ h
    · exact ih _ _ h
    · exact ih _ _ (by simp only [List.length_append, List.length_singleton]; omega)
    · exact ih _ _ h

/-- The per-page candidate loop preserves: emitted ids are distinct, every
emitted id is in the seen set, and every emitted record passed the bounds,
details-status and operational checks. -/
theorem process_places_inv (details : String → DetailResp) (bounds : Bounds)
    (business_type : String) (max_results : Nat) :
    ∀ (places : List Place) (leads : List EmitRec) (processed : List String),
      ((leads.map EmitRec.place_id).Nodup ∧
       (∀ e ∈ leads, e.place_id ∈ processed) ∧
       (∀ e ∈ leads, Emitted details bounds e)) →
      (((process_places details bounds business_type max_results places
            leads processed).1.map EmitRec.place_id).Nodup ∧
       (∀ e ∈ (process_places details bounds business_type max_results places
            leads processed).1,
          e.place_id ∈ (process_places details bounds business_type max_results places
            leads processed).2) ∧
       (∀ e ∈ (process_places details bounds business_type max_results places
            leads processed).1, Emitted details bounds e)) := by
  intro places
  induction places with
  | nil => intro leads processed h; simpa [process_places] using h
  | cons pl rest ih =>
    intro leads processed h
    simp only [process_places]
    split_ifs with hmax hdup hbound hstat hop
    · simpa using h
    · exact ih _ _ h
    · exact ih _ _ ⟨h.1, fun e he => List.mem_cons_of_mem _ (h.2.1 e he), h.2.2⟩
    · exact ih _ _ ⟨h.1, fun e he => List.mem_cons_of_mem _ (h.2.1 e he), h.2.2⟩
    · refine ih _ _ ⟨?_, ?_, ?_⟩
      · have hnotmem : pl.place_id ∉ processed := by simpa using hdup
        have hnotlead : pl.place_id ∉ leads.map EmitRec.place_id := by
          intro hmem
          rcases List.mem_map.mp hmem with ⟨e, he, hpe⟩
          exact hnotmem (hpe ▸ h.2.1 e he)
        simp only [List.map_append, List.map_cons, List.map_nil]
        rw [List.nodup_append]
        refine ⟨h.1, List.nodup_singleton _, ?_⟩
        intro a ha hb
        simp only [List.mem_singleton] at hb
        subst hb
        exact hnotlead ha
      · intro e he
        rcases List.mem_append.mp he with he | he
        · exact List.mem_cons_of_mem _ (h.2.1 e he)
        · simp only [List.mem_singleton] at he
          subst he
          exact List.mem_cons_self _ _
      · intro e he
        rcases List.mem_append.mp he with he | he
        · exact h.2.2 e he
        · simp only [List.mem_singleton] at he
          subst he
          refine ⟨by simpa using hbound, by simpa using hstat, ?_⟩
          simpa using hop
    · exact ih _ _ ⟨h.1, fun e he => List.mem_cons_of_mem _ (h.2.1 e he), h.2.2⟩

/-- The pagination loop preserves the cap, distinctness of emitted ids, and
the admission facts of every emitted record. -/
theorem run_pages_spec (details : String → DetailResp) (bounds : Bounds)
    (business_type : String) (max_results : Nat) :
    ∀ (pages : List PageResp) (leads : List EmitRec) (processed : List String),
      (leads.length ≤ max_results ∧
       (leads.map EmitRec.place_id).Nodup ∧
       (∀ e ∈ leads, e.place_id ∈ processed) ∧
       (∀ e ∈ leads, Emitted details bounds e)) →
      ((run_pages details bounds business_type max_results pages
          leads processed).length ≤ max_results ∧
       ((run_pages details bounds business_type max_results pages
          leads processed).map EmitRec.place_id).Nodup ∧
       (∀ e ∈ run_pages details bounds business_type max_results pages leads processed,
          Emitted details bounds e)) := by
  intro pages
  induction pages with
  | nil => intro leads processed h; exact ⟨h.1, h.2.1, h.2.2.2⟩
  | cons page rest ih =>
    intro leads processed h
    simp only [run_pages]
    split_ifs with hmax hstat htok
    · exact ⟨h.1, h.2.1, h.2.2.2⟩
    · have hl := process_places_length details bounds business_type max_results
        page.results leads processed h.1
      have hi := process_places_inv details bounds business_type max_results
        page.results leads processed ⟨h.2.1, h.2.2.1, h.2.2.2⟩
      exact ⟨hl, hi.1, hi.2.2⟩
    · have hl := process_places_length details bounds business_type max_results
        page.results leads processed h.1
      have hi := process_places_inv details bounds business_type max_results
        page.results leads processed ⟨h.2.1, h.2.2.1, h.2.2.2⟩
      exact ih _ _ ⟨hl, hi.1, hi.2.1, hi.2.2⟩
    · exact ⟨h.1, h.2.1, h.2.2.2⟩

/-! ### Claim theorems: discovery -/

/-- Claim C1: for every bounds record and every point `(lat, lng)`, the
bounds membership test `_is_within_bounds` returns true iff
`southwest.lat ≤ lat ≤ northeast.lat` and
`southwest.lng ≤ lng ≤ northeast.lng`, inclusive on all four edges. -/
theorem is_within_bounds_iff (lat lng : ℚ) (b : Bounds) :
    is_within_bounds lat lng b = true ↔
      (b.southwest.lat ≤ lat ∧ lat ≤ b.northeast.lat ∧
       b.southwest.lng ≤ lng ∧ lng ≤ b.northeast.lng) := by
  simp [is_within_bounds, and_assoc]

/-- Claim C2: for every category, location (geocode response), cap and
sequence of provider responses, `generate_leads` returns at most
`max_results` leads, and no two returned leads stem from the same
`place_id` within one run. -/
theorem generate_leads_card_nodup (details : String → DetailResp) (geo : GeoResp)
    (business_type : String) (max_results : Nat) (pages : List PageResp) :
    (generate_leads details geo business_type max_results pages).length ≤ max_results ∧
    ((generate_leads_trace details geo business_type max_results pages).map
        EmitRec.place_id).Nodup := by
  have key :
      (generate_leads_trace details geo business_type max_results pages).length
          ≤ max_results ∧
      ((generate_leads_trace details geo business_type max_results pages).map
          EmitRec.place_id).Nodup := by
    unfold generate_leads_trace
    cases hgeo : get_location_bounds geo with
    | none => simp
    | some ld =>
      have h := run_pages_spec details ld.bounds business_type max_results pages [] []
        (by simp)
      exact ⟨h.1, h.2.1⟩
  exact ⟨by simpa [generate_leads] using key.1, key.2⟩

/-- Claim C3: every lead emitted by `generate_leads` comes from a candidate
whose coordinates lie within the run's resolved location bounds and whose
details lookup succeeded with business status `OPERATIONAL`. -/
theorem generate_leads_in_bounds_operational (details : String → DetailResp)
    (geo : GeoResp) (business_type : String) (max_results : Nat)
    (pages : List PageResp) (ld : LocationData)
    (hld : get_location_bounds geo = some ld) :
    ∀ e ∈ generate_leads_trace details geo business_type max_results pages,
      is_within_bounds e.place_loc.lat e.place_loc.lng ld.bounds = true ∧
      (details e.place_id).status = "OK" ∧
      (details e.place_id).result.business_status = some "OPERATIONAL" := by
  intro e he
  unfold generate_leads_trace at he
  rw [hld] at he
  exact (run_pages_spec details ld.bounds business_type max_results pages [] []
    (by simp)).2.2 e he

/-- Witness for C3: the concrete scenario emits `wit_emit`, which passed
the bounds and operational checks. -/
theorem generate_leads_in_bounds_operational_witness :
    is_within_bounds wit_emit.place_loc.lat wit_emit.place_loc.lng wit_ld.bounds = true ∧
    (wit_details wit_emit.place_id).status = "OK" ∧
    (wit_details wit_emit.place_id).result.business_status = some "OPERATIONAL" :=
  generate_leads_in_bounds_operational wit_details wit_geo "dentist" 5 [wit_page] wit_ld
    (by decide) wit_emit (by decide)

/-- Claim C9: when the provider reports a non-success status on a search
page, pagination ends and the already-collected leads are returned
(partial success, not an empty sequence). -/
theorem run_pages_error_preserves (details : String → DetailResp) (bounds : Bounds)
    (business_type : String) (max_results : Nat) (page : PageResp)
    (rest : List PageResp) (leads : List EmitRec) (processed : List String)
    (hstat : page.status ≠ "OK") (hne : leads ≠ []) :
    run_pages details bounds business_type max_results (page :: rest) leads processed
        = leads ∧
    run_pages details bounds business_type max_results (page :: rest) leads processed
        ≠ [] := by
  have heq : run_pages details bounds business_type max_results (page :: rest)
      leads processed = leads := by
    simp only [run_pages]
    split_ifs with hmax hok htok
    · rfl
    · exact absurd (by simpa using hok) hstat
    · exact absurd (by simpa using hok) hstat
    · rfl
  exact ⟨heq, by rw [heq]; exact hne⟩

/-- Witness for C9: one lead already gathered, then an error page; the lead
is preserved. -/
theorem run_pages_error_preserves_witness :
    run_pages wit_details wit_bounds "dentist" 5 [cex9_page] [wit_emit] ["p1"]
        = [wit_emit] ∧
    run_pages wit_details wit_bounds "dentist" 5 [cex9_page] [wit_emit] ["p1"]
        ≠ [] :=
  run_pages_error_preserves wit_details wit_bounds "dentist" 5 cex9_page []
    [wit_emit] ["p1"] (by decide) (by decide)

/-- Claim C10: constructing a `LeadGenerator` with an empty (falsy) API key
fails with `ValueError`; any non-empty key is stored together with the
default politeness delay `0.5`. -/
theorem lead_generator_init_spec :
    LeadGenerator.init "" = Except.error "Missing Google API Key" ∧
    (∀ api_key : String, api_key ≠ "" →
      LeadGenerator.init api_key =
        Except.ok { api_key := api_key, delay_between_requests := (1 : ℚ)/2 }) := by
  constructor
  · rfl
  · intro k hk
    simp [LeadGenerator.init, hk]

/-- Witness for C10: a concrete non-empty key constructs successfully. -/
theorem lead_generator_init_spec_witness :
    LeadGenerator.init "AIza-test" =
      Except.ok { api_key := "AIza-test", delay_between_requests := (1 : ℚ)/2 } :=
  lead_generator_init_spec.2 "AIza-test" (by decide)

/-! ### Claim theorems: quality scoring and filtering -/

/-- Claim C4: the quality score always lies in `[0, 100]`; a lead with all
scored fields absent scores `0`; a lead with a valid website, a non-blank
email, at least three non-empty key facts and admissible owner info at
confidence `high` scores exactly `100`. -/
theorem calculate_quality_score_spec :
    (∀ (cfg : LeadQualityConfig) (lead : QLead),
      0 ≤ calculate_quality_score cfg lead ∧ calculate_quality_score cfg lead ≤ 100) ∧
    (∀ (cfg : LeadQualityConfig) (lead : QLead),
      lead.website = "" → lead.discovered_emails = "" → lead.potential_emails = "" →
      lead.key_facts = "" → lead.owner_name = "" → lead.confidence = "" →
      calculate_quality_score cfg lead = 0) ∧
    (∀ (cfg : LeadQualityConfig) (lead : QLead),
      has_valid_website lead = true → has_valid_email lead = true →
      3 ≤ facts_count lead.key_facts → has_owner_info lead = true →
      ascii_lower lead.confidence = "high" →
      calculate_quality_score cfg lead = 100) := by
  refine ⟨?_, ?_, ?_⟩
  · intro cfg lead
    refine ⟨Nat.zero_le _, ?_⟩
    have hmin : min (facts_count lead.key_facts * 10) 30 ≤ 30 := Nat.min_le_right _ _
    simp only [calculate_quality_score]
    split_ifs <;> omega
  · intro cfg lead hw hd hp hk ho hc
    obtain ⟨w, de, pe, kf, on_, conf, addr⟩ := lead
    dsimp only at hw hd hp hk ho hc
    subst hw hd hp hk ho hc
    rfl
  · intro cfg lead hw he hf ho hconf
    have h30 : min (facts_count lead.key_facts * 10) 30 = 30 := by omega
    simp [calculate_quality_score, hw, he, ho, hconf, h30]

/-- Witness for C4: the maximal concrete lead scores `100` and the
all-absent concrete lead scores `0`. -/
theorem calculate_quality_score_spec_witness :
    calculate_quality_score {} wit_max_lead = 100 ∧
    calculate_quality_score {} {} = 0 :=
  ⟨calculate_quality_score_spec.2.2 {} wit_max_lead (by decide) (by decide)
      (by decide) (by decide) (by decide),
   calculate_quality_score_spec.2.1 {} {} rfl rfl rfl rfl rfl rfl⟩

/-- Claim C6 counterexample: with `min_key_facts = 0` and blank `key_facts`,
the split-and-trim count (`0`) meets the threshold, yet the predicate
returns `false` because of the blank-string early return — so the claimed
biconditional fails at this input. -/
theorem has_sufficient_key_facts_cex :
    has_sufficient_key_facts cex6_cfg {} = false ∧
    cex6_cfg.min_key_facts ≤ facts_count (QLead.key_facts {}) := by decide

/-- Claim C6 (amended): the predicate holds iff `key_facts` is non-blank
after trimming and splitting on semicolons and trimming yields at least
`min_key_facts` non-empty entries. -/
theorem has_sufficient_key_facts_iff (cfg : LeadQualityConfig) (lead : QLead) :
    has_sufficient_key_facts cfg lead = true ↔
      (py_strip lead.key_facts ≠ "" ∧
       cfg.min_key_facts ≤ facts_count lead.key_facts) := by
  by_cases h : py_strip lead.key_facts = ""
  · simp [has_sufficient_key_facts, h]
  · simp [has_sufficient_key_facts, h]

/-- Unfolding of `_matches_location` under `strict_location_match = true`. -/
theorem matches_location_eq (cfg : LeadQualityConfig) (lead : QLead)
    (target_location : String) (hs : cfg.strict_location_match = true) :
    matches_location cfg lead target_location =
      (match py_split (ascii_lower target_location) ',' with
       | [city, st] =>
           py_in (py_strip city) (ascii_lower lead.full_address) &&
             py_in (py_strip st) (ascii_lower lead.full_address)
       | _ => true) := by
  unfold matches_location
  rw [hs]
  rfl

/-- Claim C7 counterexample: for target `"a ,b"` (exactly two comma parts)
and address `"ab"`, the check passes although the first part `"a "` does
not occur as a substring of the address — the untrimmed biconditional of
the claim fails at this input. -/
theorem matches_location_cex :
    matches_location {} cex7_lead "a ,b" = true ∧
    py_split (ascii_lower "a ,b") ',' = ["a ", "b"] ∧
    py_in "a " (ascii_lower cex7_lead.full_address) = false := by decide

/-- Claim C7 (amended): with strict matching on, a target that does not
split into exactly two comma parts passes unconditionally; with exactly two
parts, the check passes iff both parts, trimmed of surrounding whitespace,
occur case-insensitively as substrings of the full address. -/
theorem matches_location_spec (cfg : LeadQualityConfig) (lead : QLead)
    (target_location : String) (hs : cfg.strict_location_match = true) :
    ((py_split (ascii_lower target_location) ',').length ≠ 2 →
      matches_location cfg lead target_location = true) ∧
    (∀ city st,
      py_split (ascii_lower target_location) ',' = [city, st] →
      (matches_location cfg lead target_location = true ↔
        (py_in (py_strip city) (ascii_lower lead.full_address) = true ∧
         py_in (py_strip st) (ascii_lower lead.full_address) = true))) := by
  have he := matches_location_eq cfg lead target_location hs
  constructor
  · intro hlen
    rw [he]
    cases hsp : py_split (ascii_lower target_location) ',' with
    | nil => rfl
    | cons a t =>
      cases t with
      | nil => rfl
      | cons b t2 =>
        cases t2 with
        | nil => exact absurd (by rw [hsp]; rfl) hlen
        | cons c t3 => rfl
  · intro city st hsp
    rw [he, hsp]
    simp

/-- Witness for C7: the spec-suite example target `"Newbern, NC"` against
an address containing both parts. -/
theorem matches_location_spec_witness :
    matches_location {} wit7_lead "Newbern, NC" = true ↔
      (py_in (py_strip "newbern") (ascii_lower wit7_lead.full_address) = true ∧
       py_in (py_strip " nc") (ascii_lower wit7_lead.full_address) = true) :=
  (matches_location_spec {} wit7_lead "Newbern, NC" (by decide)).2 "newbern" " nc"
    (by decide)

/-- Claim C8: two configs differing only in `min_confidence_level` produce
identical outputs from `filter_leads`, `calculate_quality_score` and
`enrich_leads_with_scores` — the field is never read. -/
theorem min_confidence_level_noninterference (cfg : LeadQualityConfig) (v : String)
    (leads : List QLead) (target_location : Option String) (lead : QLead) :
    filter_leads { cfg with min_confidence_level := v } leads target_location
        = filter_leads cfg leads target_location ∧
    calculate_quality_score { cfg with min_confidence_level := v } lead
        = calculate_quality_score cfg lead ∧
    enrich_leads_with_scores { cfg with min_confidence_level := v } leads
        = enrich_leads_with_scores cfg leads := by
  cases cfg
  exact ⟨rfl, rfl, rfl⟩
